import Mathlib

/-!
Verification of the animation-editor core of the Fyrol repository
(src/editor/src/animation/mod.rs) against its natural-language
specification.

Shallow embedding notes.
- Scene-pool handles (fyrox Handle, an opaque nullable reference) are
  modelled as natural numbers, with 0 standing for Handle::NONE (the
  default/null handle); a pool lookup of NONE always fails, as in fyrox.
- Scalar payloads (f32 keyframe times/values, Vector2 coordinates) are
  only moved and compared for equality by this code, never computed with,
  so they are modelled as integers.
- The borrow of the scene via engine.scenes[editor_scene.scene] is
  collapsed into a single graph argument: the code only ever reads the
  graph of the one scene named by the editor scene.
- ui.send_message calls and Sender::send calls are modelled by returning
  the ordered list of emitted outputs; the .unwrap() on the command
  channel send is modelled by an Option result, none meaning the process
  aborts (panics).
- Toolbar, TrackList and the Ruler widget live in sibling modules of this
  repository that are not part of the given source; the outputs their
  handle_ui_message / sync_to_model calls produce are taken as explicit
  list parameters, constrained in theorems only by spec-derived
  hypotheses (they emit messages to their own widgets and, on the render
  path, no commands).
-/

namespace Fyrol

/-- Scene-pool handles; 0 models Handle::NONE (the default handle). -/
abbrev Handle := Nat

/-- Handle::NONE, which is also Handle::default(). -/
def Handle.NONE : Handle := 0

/-- Scalar payload values (f32 in the source, only moved, never computed with). -/
abbrev Val := Int

/-- A 2-d vector payload (fyrox Vector2), as carried by ViewPosition/Zoom. -/
structure Vec2 where
  x : Val
  y : Val
deriving DecidableEq, Repr

/-- A keyframe of a curve: a (time, value) sample; tangent/interpolation
metadata is opaque to this core and folded into the value payload. -/
structure Keyframe where
  time : Val
  value : Val
deriving DecidableEq, Repr

/-- A curve: a stable identity plus an ordered sequence of keyframes. -/
structure Curve where
  id : Nat
  keyframes : List Keyframe
deriving DecidableEq, Repr

/-- A track; frames_container().curves_ref() is its list of curves. -/
structure Track where
  curves : List Curve
deriving DecidableEq, Repr

/-- An animation: an ordered sequence of tracks. -/
structure Animation where
  tracks : List Track
deriving DecidableEq, Repr

/-- The AnimationPlayer component (capability): its animation container,
a pool keyed by handle. -/
structure AnimationPlayerComp where
  animations : List (Handle × Animation)
deriving DecidableEq, Repr

/-- A scene-graph node; the only capability this code queries is the
AnimationPlayer component. -/
structure Node where
  animationPlayer : Option AnimationPlayerComp
deriving DecidableEq, Repr

/-- The scene graph: a pool of nodes keyed by handle. -/
abbrev Graph := List (Handle × Node)

/-- graph.try_get(h): a lookup that always fails on Handle::NONE, as a
fyrox pool borrow on the null handle does. -/
def Graph.tryGet (g : Graph) (h : Handle) : Option Node :=
  if h = Handle.NONE then none
  else (g.find? (fun p => p.1 == h)).map (fun p => p.2)

/-- graph.try_get(h).and_then(query_component::[AnimationPlayer]): resolve a
handle to the AnimationPlayer capability of the node it names. -/
def tryGetPlayer (g : Graph) (h : Handle) : Option AnimationPlayerComp :=
  (g.tryGet h).bind (fun n => n.animationPlayer)

/-- animation_player.animations().try_get(h). -/
def AnimationPlayerComp.tryGetAnimation (ap : AnimationPlayerComp) (h : Handle) :
    Option Animation :=
  if h = Handle.NONE then none
  else (ap.animations.find? (fun p => p.1 == h)).map (fun p => p.2)

/-- animation.tracks().iter().find_map over each track's curves, matching by
curve id: the linear search of the render path. -/
def Animation.findCurve (a : Animation) (cid : Nat) : Option Curve :=
  a.tracks.findSome? (fun t => t.curves.find? (fun c => c.id == cid))

/-- SelectedEntity: tagged variant over Track/Curve/Keyframe ids. -/
inductive SelectedEntity
  | track (id : Nat)
  | curve (id : Nat)
  | keyframe (id : Nat)
deriving DecidableEq, Repr

/-- AnimationSelection: the normalized selection record. -/
structure AnimationSelection where
  animation_player : Handle
  animation : Handle
  entities : List SelectedEntity
deriving DecidableEq, Repr

/-- The graph-scoped external selection: a list of selected scene nodes. -/
structure GraphSelection where
  nodes : List Handle
deriving DecidableEq, Repr

/-- The polymorphic external selection: animation-scoped, graph-scoped, or
any other variant (None, and the remaining editor selection kinds). -/
inductive Selection
  | animation (s : AnimationSelection)
  | graph (s : GraphSelection)
  | other
deriving DecidableEq, Repr

/-- fetch_selection (src/editor/src/animation/mod.rs lines 42-65). -/
def fetch_selection (editor_selection : Selection) : AnimationSelection :=
  match editor_selection with
  | .animation s =>
    ⟨s.animation_player, s.animation, s.entities⟩
  | .graph s =>
    ⟨(s.nodes.head?).getD Handle.NONE, Handle.NONE, []⟩
  | .other =>
    ⟨Handle.NONE, Handle.NONE, []⟩

/-- Message direction of a UI message. -/
inductive MessageDirection
  | toWidget
  | fromWidget
deriving DecidableEq, Repr

/-- CurveEditorMessage payload variants matched by handle_ui_message; the
variants swallowed by the catch-all arm are collapsed into otherMsg. -/
inductive CurveEditorMessage
  | sync (curve : Curve)
  | viewPosition (position : Vec2)
  | zoom (zoom : Vec2)
  | otherMsg
deriving DecidableEq, Repr

/-- The payload of an incoming UI message: either a CurveEditorMessage
(message.data() downcast succeeds) or anything else. -/
inductive MsgData
  | curveEditorData (m : CurveEditorMessage)
  | otherData
deriving DecidableEq, Repr

/-- An incoming UI message: destination widget, direction, payload. -/
structure UiMessage where
  destination : Handle
  direction : MessageDirection
  data : MsgData
deriving DecidableEq, Repr

/-- ReplaceTrackCurveCommand, the one command this module submits. -/
inductive Command
  | replaceTrackCurve (animation_player : Handle) (animation : Handle) (curve : Curve)
deriving DecidableEq, Repr

/-- Outgoing widget-update messages sent through ui.send_message. The
otherWidget variant stands for messages of the sibling controllers
(toolbar, track list) whose payloads are outside the given source. -/
inductive UiOut
  | rulerViewPosition (dest : Handle) (x : Val)
  | rulerZoom (dest : Handle) (x : Val)
  | curveSync (dest : Handle) (curve : Curve)
  | curveZoomToFit (dest : Handle)
  | visibility (dest : Handle) (value : Bool)
  | windowOpen (dest : Handle) (value : Bool)
  | otherWidget (dest : Handle) (tag : Nat)
deriving DecidableEq, Repr

/-- Destination widget of an outgoing widget-update message. -/
def UiOut.dest : UiOut → Handle
  | .rulerViewPosition d _ => d
  | .rulerZoom d _ => d
  | .curveSync d _ => d
  | .curveZoomToFit d => d
  | .visibility d _ => d
  | .windowOpen d _ => d
  | .otherWidget d _ => d

/-- An observable output of the module: a command submitted to the outbound
channel, or a widget-update message. -/
inductive Out
  | command (c : Command)
  | ui (m : UiOut)
deriving DecidableEq, Repr

/-- Whether an output is a command submission. -/
def Out.isCommand : Out → Bool
  | .command _ => true
  | .ui _ => false

/-- The commands among an output sequence. -/
def commandsOf (out : List Out) : List Out :=
  out.filter Out.isCommand

/-- The visibility messages destined to a given widget in an output
sequence. -/
def visibilityMsgsTo (d : Handle) (out : List Out) : List Out :=
  out.filter (fun o =>
    match o with
    | .ui (.visibility d2 _) => d2 == d
    | _ => false)

/-- The curve-editor widget messages (Sync / ZoomToFit) destined to a given
widget in an output sequence. -/
def curveEditorMsgsTo (d : Handle) (out : List Out) : List Out :=
  out.filter (fun o =>
    match o with
    | .ui (.curveSync d2 _) => d2 == d
    | .ui (.curveZoomToFit d2) => d2 == d
    | _ => false)

/-- The ruler relay messages (ViewPosition / Zoom) destined to a given
widget in an output sequence. -/
def rulerMsgsTo (d : Handle) (out : List Out) : List Out :=
  out.filter (fun o =>
    match o with
    | .ui (.rulerViewPosition d2 _) => d2 == d
    | .ui (.rulerZoom d2 _) => d2 == d
    | _ => false)

/-- The AnimationEditor state: the widget handles allocated once at
construction (window, curve editor, content panel, ruler). The toolbar
and track-list sub-controllers live in modules outside the given source;
their outputs enter the entry points as explicit parameters. -/
structure AnimationEditor where
  window : Handle
  curve_editor : Handle
  content : Handle
  ruler : Handle
deriving DecidableEq, Repr

/-- The editor scene context handed to the entry points; only its current
selection is read here (its scene handle is collapsed into the graph
argument of the entry points). -/
structure EditorScene where
  selection : Selection
deriving DecidableEq, Repr

/-- AnimationEditor::open: sends WindowMessage::open to the window. -/
def AnimationEditor.openWindow (ed : AnimationEditor) : List Out :=
  [.ui (.windowOpen ed.window true)]

/-- The curve-bridge portion of handle_ui_message (lines 194-224): the match
on the CurveEditorMessage payload, guarded by destination = curve_editor
and direction = FromWidget. chanOpen models whether the outbound command
channel is still open; none models the process abort of .unwrap() on a
failed send. -/
def curveBridgeHandle (ed : AnimationEditor) (message : UiMessage)
    (selection : AnimationSelection) (chanOpen : Bool) : Option (List Out) :=
  match message.data with
  | .curveEditorData m =>
    if message.destination == ed.curve_editor
        && message.direction == MessageDirection.fromWidget then
      match m with
      | .sync curve =>
        if chanOpen then
          some [.command (.replaceTrackCurve selection.animation_player
            selection.animation curve)]
        else
          none
      | .viewPosition position =>
        some [.ui (.rulerViewPosition ed.ruler position.x)]
      | .zoom z =>
        some [.ui (.rulerZoom ed.ruler z.x)]
      | .otherMsg => some []
    else some []
  | .otherData => some []

/-- AnimationEditor::handle_ui_message (lines 157-227). toolbarOut and
trackListOut are the outputs of the toolbar and track-list sub-handlers
(modules outside the given source), emitted, as in the source, only when
the resolved animation_player carries the AnimationPlayer capability and
before the curve bridge runs. The result is none when the process aborts
(command-channel send failure). -/
def AnimationEditor.handle_ui_message (ed : AnimationEditor) (message : UiMessage)
    (editor_scene : Option EditorScene) (graph : Graph)
    (toolbarOut trackListOut : List Out) (chanOpen : Bool) : Option (List Out) :=
  match editor_scene with
  | none => some []
  | some es =>
    let selection := fetch_selection es.selection
    match tryGetPlayer graph selection.animation_player with
    | none => some []
    | some _ =>
      match curveBridgeHandle ed message selection chanOpen with
      | none => none
      | some bridgeOut => some (toolbarOut ++ trackListOut ++ bridgeOut)

/-- The curve-bridge portion of the render path (lines 246-267): if the
first selected entity is a Curve, linear-search the resolved animation
for it; on a hit, emit Sync with a full copy of the found curve, then
ZoomToFit, both to the curve-editor widget; otherwise emit nothing. -/
def syncCurveOut (ed : AnimationEditor) (selection : AnimationSelection)
    (animation : Animation) : List Out :=
  match selection.entities.head? with
  | some (.curve selected_curve_id) =>
    match animation.findCurve selected_curve_id with
    | some selected_curve =>
      [.ui (.curveSync ed.curve_editor selected_curve),
       .ui (.curveZoomToFit ed.curve_editor)]
    | none => []
  | _ => []

/-- The body of the render path under the animation lookup (lines 242-268):
when the selected animation resolves in the player, run the track-list
sync then the curve-bridge sync; otherwise nothing. -/
def syncInner (ed : AnimationEditor) (selection : AnimationSelection)
    (animation_player : AnimationPlayerComp) (trackListOut : List Out) :
    List Out :=
  match animation_player.tryGetAnimation selection.animation with
  | some animation => trackListOut ++ syncCurveOut ed selection animation
  | none => []

/-- AnimationEditor::sync_to_model (lines 229-285). toolbarOut and
trackListOut are the outputs of the sub-controller render-path syncs
(modules outside the given source), emitted exactly where the source
calls them: toolbar when the capability resolves, track list when the
animation also resolves. Returns the (unchanged, as in the source, which
assigns none of its fields) editor state and the ordered outputs. -/
def AnimationEditor.sync_to_model (ed : AnimationEditor) (editor_scene : EditorScene)
    (graph : Graph) (toolbarOut trackListOut : List Out) :
    AnimationEditor × List Out :=
  let selection := fetch_selection editor_scene.selection
  match tryGetPlayer graph selection.animation_player with
  | some animation_player =>
    (ed, toolbarOut ++ syncInner ed selection animation_player trackListOut
      ++ [.ui (.visibility ed.content true)])
  | none =>
    (ed, [.ui (.visibility ed.content false)])

/-- The data-model invariant of AnimationSelection stated in the spec:
entities is empty whenever animation is null. -/
def selectionInvariant (s : AnimationSelection) : Prop :=
  s.animation = Handle.NONE → s.entities = []

/-- The same invariant, read on an external selection value: it constrains
only the animation-scoped variant (the payload copied verbatim). -/
def externalSelectionInvariant : Selection → Prop
  | .animation s => s.animation = Handle.NONE → s.entities = []
  | _ => True

/-- Spec-side resolver, written from the words of spec section 4.1: ordered
policy with first match winning — animation-scoped copied verbatim;
graph-scoped with at least one node takes the first node as the player
with null animation and empty entities; otherwise the all-null default.
Used only to state the refinement claim about fetch_selection. -/
def resolveSpec (sel : Selection) : AnimationSelection :=
  match sel with
  | .animation s => ⟨s.animation_player, s.animation, s.entities⟩
  | .graph s =>
    match s.nodes with
    | n :: _ => ⟨n, Handle.NONE, []⟩
    | [] => ⟨Handle.NONE, Handle.NONE, []⟩
  | .other => ⟨Handle.NONE, Handle.NONE, []⟩

/-- A concrete curve (id 7, keyframes [(0,0),(1,1)]) used by the witnesses. -/
def sampleCurve : Curve := ⟨7, [⟨0, 0⟩, ⟨1, 1⟩]⟩

/-- A concrete animation with one track containing sampleCurve. -/
def sampleAnimation : Animation := ⟨[⟨[sampleCurve]⟩]⟩

/-- A concrete graph: node 5 carries an AnimationPlayer holding
sampleAnimation under handle 6. -/
def sampleGraph : Graph := [(5, ⟨some ⟨[(6, sampleAnimation)]⟩⟩)]

/-- A concrete editor scene whose selection is animation-scoped on player 5,
animation 6, with the curve of id 7 selected. -/
def sampleScene : EditorScene := ⟨.animation ⟨5, 6, [.curve 7]⟩⟩

/-- A concrete editor: window 1, curve editor 2, content panel 3, ruler 4. -/
def sampleEditor : AnimationEditor := ⟨1, 2, 3, 4⟩

/-! Helper lemmas shared by the claim theorems. -/

theorem commandsOf_append (a b : List Out) :
    commandsOf (a ++ b) = commandsOf a ++ commandsOf b := by
  simp [commandsOf]

theorem visibilityMsgsTo_append (d : Handle) (a b : List Out) :
    visibilityMsgsTo d (a ++ b) = visibilityMsgsTo d a ++ visibilityMsgsTo d b := by
  simp [visibilityMsgsTo]

theorem curveEditorMsgsTo_append (d : Handle) (a b : List Out) :
    curveEditorMsgsTo d (a ++ b)
      = curveEditorMsgsTo d a ++ curveEditorMsgsTo d b := by
  simp [curveEditorMsgsTo]

theorem rulerMsgsTo_append (d : Handle) (a b : List Out) :
    rulerMsgsTo d (a ++ b) = rulerMsgsTo d a ++ rulerMsgsTo d b := by
  simp [rulerMsgsTo]

/-- C2 counterexample: an animation-scoped external selection whose payload
has a null animation handle but a nonempty entity list is copied verbatim
by fetch_selection, so the returned AnimationSelection violates the
invariant that entities is empty whenever animation is null. -/
theorem fetch_selection_invariant_counterexample :
    ¬ selectionInvariant
      (fetch_selection (.animation ⟨5, Handle.NONE, [.curve 7]⟩)) := by
  intro h
  have h2 := h rfl
  simp [fetch_selection] at h2

/-- C2 (amended): fetch_selection preserves the invariant — for every
external selection that is not animation-scoped the result satisfies it
outright, and for an animation-scoped selection it satisfies it whenever
the copied payload already does. -/
theorem fetch_selection_invariant (sel : Selection)
    (h : externalSelectionInvariant sel) :
    selectionInvariant (fetch_selection sel) := by
  cases sel with
  | animation s =>
    intro ha
    simp only [externalSelectionInvariant] at h
    simp only [fetch_selection, selectionInvariant] at ha ⊢
    exact h ha
  | graph s =>
    intro _
    rfl
  | other =>
    intro _
    rfl

/-- C2 witness: the amended theorem applied at a concrete graph-scoped
selection. -/
theorem fetch_selection_invariant_witness :
    externalSelectionInvariant (.graph ⟨[3]⟩) ∧
      selectionInvariant (fetch_selection (.graph ⟨[3]⟩)) :=
  ⟨trivial, fetch_selection_invariant (.graph ⟨[3]⟩) trivial⟩

/-- C5: fetch_selection is a total function (a Lean match over the closed
external-selection type) and agrees, on every input, with the spec-side
ordered resolution policy resolveSpec: animation-scoped copied verbatim;
graph-scoped takes the first node (null animation, empty entities); any
other shape yields the all-null/empty default. -/
theorem fetch_selection_total_policy (sel : Selection) :
    fetch_selection sel = resolveSpec sel := by
  cases sel with
  | animation s => rfl
  | graph s =>
    rcases s with ⟨nodes⟩
    cases nodes with
    | nil => rfl
    | cons n rest => rfl
  | other => rfl

/-- C10: a graph-scoped external selection with an empty node list resolves
to the all-null/empty default (nodes.first() misses, unwrap_or_default
yields the null handle) instead of failing. -/
theorem fetch_selection_empty_graph_default :
    fetch_selection (.graph ⟨[]⟩) = ⟨Handle.NONE, Handle.NONE, []⟩ := rfl

/-- C1: when the resolved animation_player carries the AnimationPlayer
capability and the incoming message is CurveEditorMessage::Sync(curve)
from the curve-editor widget (and the channel is open), the call returns
normally and the commands it submits are exactly one
ReplaceTrackCurveCommand whose animation_player and animation come from
the resolved selection and whose curve is the reported curve unchanged —
in particular, a curve the widget echoes back from sync_to_model is
resubmitted byte-for-byte, and no second command is submitted in the
invocation (the sub-controller handlers submit none for a message
destined to the curve editor). -/
theorem handle_sync_submits_one_command
    (ed : AnimationEditor) (es : EditorScene) (graph : Graph)
    (toolbarOut trackListOut : List Out) (curve : Curve) (message : UiMessage)
    (hdata : message.data = .curveEditorData (.sync curve))
    (hdest : message.destination = ed.curve_editor)
    (hdir : message.direction = .fromWidget)
    (hcap : (tryGetPlayer graph
      (fetch_selection es.selection).animation_player).isSome = true)
    (htb : commandsOf toolbarOut = [])
    (htl : commandsOf trackListOut = []) :
    ∃ out,
      ed.handle_ui_message message (some es) graph toolbarOut trackListOut true
        = some out ∧
      commandsOf out
        = [.command (.replaceTrackCurve
            (fetch_selection es.selection).animation_player
            (fetch_selection es.selection).animation curve)] := by
  rcases Option.isSome_iff_exists.mp hcap with ⟨ap, hap⟩
  refine ⟨toolbarOut ++ trackListOut
    ++ [.command (.replaceTrackCurve
        (fetch_selection es.selection).animation_player
        (fetch_selection es.selection).animation curve)], ?_, ?_⟩
  · simp [AnimationEditor.handle_ui_message, hap, curveBridgeHandle,
      hdata, hdest, hdir]
  · rw [commandsOf_append, commandsOf_append, htb, htl]
    rfl

/-- C1 witness: the theorem applied at a concrete editor, scene and graph in
which node 5 carries an AnimationPlayer holding animation 6, the
selection is animation-scoped on player 5 / animation 6, and the widget
reports Sync of the curve with id 7 and keyframes [(0,0),(1,1)]. -/
theorem handle_sync_submits_one_command_witness :
    ∃ out,
      AnimationEditor.handle_ui_message ⟨1, 2, 3, 4⟩
        ⟨2, .fromWidget, .curveEditorData (.sync ⟨7, [⟨0, 0⟩, ⟨1, 1⟩]⟩)⟩
        (some ⟨.animation ⟨5, 6, [.curve 7]⟩⟩)
        [(5, ⟨some ⟨[(6, ⟨[⟨[⟨7, [⟨0, 0⟩, ⟨1, 1⟩]⟩]⟩]⟩)]⟩⟩)]
        [] [] true
        = some out ∧
      commandsOf out
        = [.command (.replaceTrackCurve 5 6 ⟨7, [⟨0, 0⟩, ⟨1, 1⟩]⟩)] :=
  handle_sync_submits_one_command ⟨1, 2, 3, 4⟩ ⟨.animation ⟨5, 6, [.curve 7]⟩⟩
    [(5, ⟨some ⟨[(6, ⟨[⟨[⟨7, [⟨0, 0⟩, ⟨1, 1⟩]⟩]⟩]⟩)]⟩⟩)] [] []
    ⟨7, [⟨0, 0⟩, ⟨1, 1⟩]⟩
    ⟨2, .fromWidget, .curveEditorData (.sync ⟨7, [⟨0, 0⟩, ⟨1, 1⟩]⟩)⟩
    rfl rfl rfl (by decide) rfl rfl

/-- C6: when the resolved animation_player carries the AnimationPlayer
capability and the incoming message is CurveEditorMessage::ViewPosition(p)
(respectively Zoom(z)) from the curve-editor widget, the ruler receives
exactly one relay message — a view-position carrying p.x (respectively a
zoom carrying z.x) — and no command is submitted, for any state of the
command channel (the sub-controller handlers submit no command and send
nothing to the ruler for a message destined to the curve editor). -/
theorem handle_relay_to_ruler
    (ed : AnimationEditor) (es : EditorScene) (graph : Graph)
    (toolbarOut trackListOut : List Out) (message : UiMessage) (chanOpen : Bool)
    (hdest : message.destination = ed.curve_editor)
    (hdir : message.direction = .fromWidget)
    (hcap : (tryGetPlayer graph
      (fetch_selection es.selection).animation_player).isSome = true)
    (htbc : commandsOf toolbarOut = [])
    (htlc : commandsOf trackListOut = [])
    (htbr : rulerMsgsTo ed.ruler toolbarOut = [])
    (htlr : rulerMsgsTo ed.ruler trackListOut = []) :
    (∀ p : Vec2, message.data = .curveEditorData (.viewPosition p) →
      ∃ out,
        ed.handle_ui_message message (some es) graph toolbarOut trackListOut
          chanOpen = some out ∧
        rulerMsgsTo ed.ruler out = [.ui (.rulerViewPosition ed.ruler p.x)] ∧
        commandsOf out = [])
    ∧ (∀ z : Vec2, message.data = .curveEditorData (.zoom z) →
      ∃ out,
        ed.handle_ui_message message (some es) graph toolbarOut trackListOut
          chanOpen = some out ∧
        rulerMsgsTo ed.ruler out = [.ui (.rulerZoom ed.ruler z.x)] ∧
        commandsOf out = []) := by
  rcases Option.isSome_iff_exists.mp hcap with ⟨ap, hap⟩
  constructor
  · intro p hdata
    refine ⟨toolbarOut ++ trackListOut
      ++ [.ui (.rulerViewPosition ed.ruler p.x)], ?_, ?_, ?_⟩
    · simp [AnimationEditor.handle_ui_message, hap, curveBridgeHandle,
        hdata, hdest, hdir]
    · rw [rulerMsgsTo_append, rulerMsgsTo_append, htbr, htlr]
      simp [rulerMsgsTo]
    · rw [commandsOf_append, commandsOf_append, htbc, htlc]
      rfl
  · intro z hdata
    refine ⟨toolbarOut ++ trackListOut
      ++ [.ui (.rulerZoom ed.ruler z.x)], ?_, ?_, ?_⟩
    · simp [AnimationEditor.handle_ui_message, hap, curveBridgeHandle,
        hdata, hdest, hdir]
    · rw [rulerMsgsTo_append, rulerMsgsTo_append, htbr, htlr]
      simp [rulerMsgsTo]
    · rw [commandsOf_append, commandsOf_append, htbc, htlc]
      rfl

/-- C6 witness: the theorem applied at a concrete setup with the widget
reporting ViewPosition(42, 0); the ruler (handle 4) receives exactly the
view-position message carrying 42 and no command is submitted. -/
theorem handle_relay_to_ruler_witness :
    ∃ out,
      AnimationEditor.handle_ui_message ⟨1, 2, 3, 4⟩
        ⟨2, .fromWidget, .curveEditorData (.viewPosition ⟨42, 0⟩)⟩
        (some ⟨.animation ⟨5, 6, [.curve 7]⟩⟩)
        [(5, ⟨some ⟨[(6, ⟨[⟨[⟨7, [⟨0, 0⟩, ⟨1, 1⟩]⟩]⟩]⟩)]⟩⟩)]
        [] [] true
        = some out ∧
      rulerMsgsTo 4 out = [.ui (.rulerViewPosition 4 42)] ∧
      commandsOf out = [] :=
  (handle_relay_to_ruler ⟨1, 2, 3, 4⟩ ⟨.animation ⟨5, 6, [.curve 7]⟩⟩
    [(5, ⟨some ⟨[(6, ⟨[⟨[⟨7, [⟨0, 0⟩, ⟨1, 1⟩]⟩]⟩]⟩)]⟩⟩)] [] []
    ⟨2, .fromWidget, .curveEditorData (.viewPosition ⟨42, 0⟩)⟩ true
    rfl rfl (by decide) rfl rfl rfl rfl).1 ⟨42, 0⟩ rfl

/-- C9: when the outbound command channel is closed and the incoming message
is CurveEditorMessage::Sync from the curve-editor widget (with the
AnimationPlayer capability resolved, so the bridge runs), the send fails
and the .unwrap() aborts the process: the call yields no output (none)
instead of returning or reporting the error. -/
theorem handle_sync_closed_channel_aborts
    (ed : AnimationEditor) (es : EditorScene) (graph : Graph)
    (toolbarOut trackListOut : List Out) (curve : Curve) (message : UiMessage)
    (hdata : message.data = .curveEditorData (.sync curve))
    (hdest : message.destination = ed.curve_editor)
    (hdir : message.direction = .fromWidget)
    (hcap : (tryGetPlayer graph
      (fetch_selection es.selection).animation_player).isSome = true) :
    ed.handle_ui_message message (some es) graph toolbarOut trackListOut false
      = none := by
  rcases Option.isSome_iff_exists.mp hcap with ⟨ap, hap⟩
  simp [AnimationEditor.handle_ui_message, hap, curveBridgeHandle,
    hdata, hdest, hdir]

/-- C9 witness: the theorem applied at a concrete setup with the channel
closed. -/
theorem handle_sync_closed_channel_aborts_witness :
    AnimationEditor.handle_ui_message ⟨1, 2, 3, 4⟩
      ⟨2, .fromWidget, .curveEditorData (.sync ⟨7, [⟨0, 0⟩, ⟨1, 1⟩]⟩)⟩
      (some ⟨.animation ⟨5, 6, [.curve 7]⟩⟩)
      [(5, ⟨some ⟨[(6, ⟨[⟨[⟨7, [⟨0, 0⟩, ⟨1, 1⟩]⟩]⟩]⟩)]⟩⟩)]
      [] [] false
      = none :=
  handle_sync_closed_channel_aborts ⟨1, 2, 3, 4⟩
    ⟨.animation ⟨5, 6, [.curve 7]⟩⟩
    [(5, ⟨some ⟨[(6, ⟨[⟨[⟨7, [⟨0, 0⟩, ⟨1, 1⟩]⟩]⟩]⟩)]⟩⟩)] [] []
    ⟨7, [⟨0, 0⟩, ⟨1, 1⟩]⟩
    ⟨2, .fromWidget, .curveEditorData (.sync ⟨7, [⟨0, 0⟩, ⟨1, 1⟩]⟩)⟩
    rfl rfl rfl (by decide)

theorem visibilityMsgsTo_syncCurveOut (d : Handle) (ed : AnimationEditor)
    (sel : AnimationSelection) (anim : Animation) :
    visibilityMsgsTo d (syncCurveOut ed sel anim) = [] := by
  unfold syncCurveOut
  split
  · split
    · rfl
    · rfl
  · rfl

theorem commandsOf_syncCurveOut (ed : AnimationEditor)
    (sel : AnimationSelection) (anim : Animation) :
    commandsOf (syncCurveOut ed sel anim) = [] := by
  unfold syncCurveOut
  split
  · split
    · rfl
    · rfl
  · rfl

theorem visibilityMsgsTo_syncInner (d : Handle) (ed : AnimationEditor)
    (sel : AnimationSelection) (ap : AnimationPlayerComp) (tl : List Out)
    (htl : visibilityMsgsTo d tl = []) :
    visibilityMsgsTo d (syncInner ed sel ap tl) = [] := by
  unfold syncInner
  split
  · rw [visibilityMsgsTo_append, htl, visibilityMsgsTo_syncCurveOut]
    rfl
  · rfl

theorem commandsOf_syncInner (ed : AnimationEditor)
    (sel : AnimationSelection) (ap : AnimationPlayerComp) (tl : List Out)
    (htl : commandsOf tl = []) :
    commandsOf (syncInner ed sel ap tl) = [] := by
  unfold syncInner
  split
  · rw [commandsOf_append, htl, commandsOf_syncCurveOut]
    rfl
  · rfl

/-- C3: after every sync_to_model call the content panel receives exactly one
visibility message, whose value is true iff the resolved animation_player
carries the AnimationPlayer capability (the sub-controller syncs send no
visibility message to the content panel), and when the capability is
absent the visibility(false) message is the only output of the call. -/
theorem sync_visibility_invariant
    (ed : AnimationEditor) (es : EditorScene) (graph : Graph)
    (toolbarOut trackListOut : List Out)
    (htb : visibilityMsgsTo ed.content toolbarOut = [])
    (htl : visibilityMsgsTo ed.content trackListOut = []) :
    visibilityMsgsTo ed.content
        (ed.sync_to_model es graph toolbarOut trackListOut).2
      = [.ui (.visibility ed.content (tryGetPlayer graph
          (fetch_selection es.selection).animation_player).isSome)]
    ∧ (tryGetPlayer graph (fetch_selection es.selection).animation_player
          = none →
        (ed.sync_to_model es graph toolbarOut trackListOut).2
          = [.ui (.visibility ed.content false)]) := by
  cases h : tryGetPlayer graph (fetch_selection es.selection).animation_player with
  | none =>
    constructor
    · simp [AnimationEditor.sync_to_model, h, visibilityMsgsTo]
    · intro _
      simp [AnimationEditor.sync_to_model, h]
  | some ap =>
    constructor
    · simp only [AnimationEditor.sync_to_model, h, Option.isSome_some]
      rw [visibilityMsgsTo_append, visibilityMsgsTo_append, htb,
        visibilityMsgsTo_syncInner _ _ _ _ _ htl]
      simp [visibilityMsgsTo]
    · intro hc
      cases hc

/-- C3 witness: the theorem applied at the concrete sample setup, where the
capability resolves, so the content panel (handle 3) gets the single
visibility(true) message. -/
theorem sync_visibility_invariant_witness :
    visibilityMsgsTo 3
        (AnimationEditor.sync_to_model sampleEditor sampleScene sampleGraph
          [] []).2
      = [.ui (.visibility 3 true)]
    ∧ (tryGetPlayer sampleGraph 5 = none →
        (AnimationEditor.sync_to_model sampleEditor sampleScene sampleGraph
          [] []).2 = [.ui (.visibility 3 false)]) :=
  sync_visibility_invariant sampleEditor sampleScene sampleGraph [] [] rfl rfl

/-- C4: on the render path, with the capability and the animation resolved
(and the sub-controller syncs sending nothing to the curve-editor
widget): if the first selected entity is Curve(cid) and some track of the
animation holds a curve of that id, the curve editor receives exactly the
Sync message carrying a full copy of that curve followed by ZoomToFit; if
the linear search misses, or the first selected entity is not a Curve,
the curve editor receives no message from the call. -/
theorem sync_curve_selection
    (ed : AnimationEditor) (es : EditorScene) (graph : Graph)
    (toolbarOut trackListOut : List Out)
    (ap : AnimationPlayerComp) (anim : Animation)
    (hcap : tryGetPlayer graph
      (fetch_selection es.selection).animation_player = some ap)
    (hanim : ap.tryGetAnimation (fetch_selection es.selection).animation
      = some anim)
    (htb : curveEditorMsgsTo ed.curve_editor toolbarOut = [])
    (htl : curveEditorMsgsTo ed.curve_editor trackListOut = []) :
    (∀ cid c,
      (fetch_selection es.selection).entities.head? = some (.curve cid) →
      anim.findCurve cid = some c →
      curveEditorMsgsTo ed.curve_editor
          (ed.sync_to_model es graph toolbarOut trackListOut).2
        = [.ui (.curveSync ed.curve_editor c),
           .ui (.curveZoomToFit ed.curve_editor)])
    ∧ (∀ cid,
      (fetch_selection es.selection).entities.head? = some (.curve cid) →
      anim.findCurve cid = none →
      curveEditorMsgsTo ed.curve_editor
          (ed.sync_to_model es graph toolbarOut trackListOut).2 = [])
    ∧ ((∀ cid,
        (fetch_selection es.selection).entities.head? ≠ some (.curve cid)) →
      curveEditorMsgsTo ed.curve_editor
          (ed.sync_to_model es graph toolbarOut trackListOut).2 = []) := by
  have hout : (ed.sync_to_model es graph toolbarOut trackListOut).2
      = toolbarOut
        ++ ((trackListOut
          ++ syncCurveOut ed (fetch_selection es.selection) anim)
        ++ [.ui (.visibility ed.content true)]) := by
    simp [AnimationEditor.sync_to_model, hcap, syncInner, hanim]
  have hbase : ∀ rest : List Out,
      curveEditorMsgsTo ed.curve_editor
          (toolbarOut ++ ((trackListOut ++ rest)
            ++ [.ui (.visibility ed.content true)]))
        = curveEditorMsgsTo ed.curve_editor rest := by
    intro rest
    rw [curveEditorMsgsTo_append, htb, curveEditorMsgsTo_append,
      curveEditorMsgsTo_append, htl]
    simp [curveEditorMsgsTo]
  refine ⟨?_, ?_, ?_⟩
  · intro cid c hH hF
    rw [hout, hbase]
    simp [syncCurveOut, hH, hF, curveEditorMsgsTo]
  · intro cid hH hF
    rw [hout, hbase]
    simp [syncCurveOut, hH, hF, curveEditorMsgsTo]
  · intro hne
    rw [hout, hbase]
    unfold syncCurveOut
    cases hH : (fetch_selection es.selection).entities.head? with
    | none => rfl
    | some e =>
      cases e with
      | track i => rfl
      | keyframe i => rfl
      | curve cid => exact absurd hH (hne cid)

/-- C4 witness: the theorem applied at the concrete sample setup — the first
selected entity is Curve(7), the one track of the animation holds the
curve of id 7, and the curve editor (handle 2) receives exactly Sync of
that curve then ZoomToFit. -/
theorem sync_curve_selection_witness :
    curveEditorMsgsTo 2
        (AnimationEditor.sync_to_model sampleEditor sampleScene sampleGraph
          [] []).2
      = [.ui (.curveSync 2 sampleCurve), .ui (.curveZoomToFit 2)] :=
  (sync_curve_selection sampleEditor sampleScene sampleGraph [] []
    ⟨[(6, sampleAnimation)]⟩ sampleAnimation (by decide) (by decide)
    rfl rfl).1 7 sampleCurve rfl (by decide)

/-- C7: sync_to_model is idempotent in its observable output — it leaves the
editor state unchanged (the source assigns none of its fields, and the
sub-controller syncs are pure projections), so a second call with the
same external selection, graph and sub-controller outputs emits the
identical message sequence. -/
theorem sync_idempotent
    (ed : AnimationEditor) (es : EditorScene) (graph : Graph)
    (toolbarOut trackListOut : List Out) :
    (ed.sync_to_model es graph toolbarOut trackListOut).1 = ed ∧
    (((ed.sync_to_model es graph toolbarOut trackListOut).1).sync_to_model
        es graph toolbarOut trackListOut).2
      = (ed.sync_to_model es graph toolbarOut trackListOut).2 := by
  have h1 : (ed.sync_to_model es graph toolbarOut trackListOut).1 = ed := by
    cases h : tryGetPlayer graph (fetch_selection es.selection).animation_player with
    | none => simp [AnimationEditor.sync_to_model, h]
    | some ap => simp [AnimationEditor.sync_to_model, h]
  exact ⟨h1, by rw [h1]⟩

/-- C8: the render path never submits a command — every output of
sync_to_model is a widget-update message, for any selection and model
state (the sub-controller syncs, per the spec, emit no commands). -/
theorem sync_never_submits_commands
    (ed : AnimationEditor) (es : EditorScene) (graph : Graph)
    (toolbarOut trackListOut : List Out)
    (htb : commandsOf toolbarOut = [])
    (htl : commandsOf trackListOut = []) :
    commandsOf (ed.sync_to_model es graph toolbarOut trackListOut).2 = [] := by
  cases h : tryGetPlayer graph (fetch_selection es.selection).animation_player with
  | none => simp [AnimationEditor.sync_to_model, h, commandsOf, Out.isCommand]
  | some ap =>
    simp only [AnimationEditor.sync_to_model, h]
    rw [commandsOf_append, commandsOf_append, htb,
      commandsOf_syncInner _ _ _ _ htl]
    rfl

/-- C8 witness: the theorem applied at the concrete sample setup. -/
theorem sync_never_submits_commands_witness :
    commandsOf
        (AnimationEditor.sync_to_model sampleEditor sampleScene sampleGraph
          [] []).2 = [] :=
  sync_never_submits_commands sampleEditor sampleScene sampleGraph [] [] rfl rfl

end Fyrol
